import Mathlib

/-!
Verification of the CVAT events CSV-export pipeline
(`cvat/apps/events/export.py`): the query builder `_create_csv`
(query-string construction and dict mutation) and the request
orchestrator `export` (validation, deterministic job id, and the
poll/submit/deliver state machine over the RQ job queue).

Python values flowing through `query_params` are modelled by `QPVal`
(absent, a raw string, or a parsed numeric timestamp) together with
Python truthiness.  The external date parser (`dateutil.parser.parse`
followed by `.timestamp()`) is abstracted as a `parse` argument
returning `Except`; the filesystem, `uuid.uuid4()`, `datetime.now()`
and the RQ job store are fields of a `World` record.
-/

set_option maxRecDepth 4096

namespace CvatEventsExport

/-- Value of one entry of the Python `query_params` dict: `None`, a raw
query-string value, or the float timestamp written back by
`parser.parse(...).timestamp()` (modelled as an integer). -/
inductive QPVal
  | none
  | str (s : String)
  | num (n : Int)
deriving DecidableEq, Repr

/-- Python truthiness of a `query_params` value: `None` and `""` and a
zero timestamp are falsy, everything else truthy. -/
def QPVal.truthy : QPVal → Bool
  | QPVal.none => false
  | QPVal.str s => s != ""
  | QPVal.num n => n != 0

/-- Numeric content of a value (used only after truthiness has
established the value is a parsed timestamp). -/
def QPVal.getNum : QPVal → Int
  | QPVal.num n => n
  | _ => 0

/-- Lift `request.query_params.get(key, None)` into a `QPVal`. -/
def QPVal.ofOpt : Option String → QPVal
  | Option.none => QPVal.none
  | Option.some s => QPVal.str s

/-- RQ job states (the orchestrator only distinguishes
`is_finished`, `is_failed`, and everything else). -/
inductive JobStatus
  | queued
  | started
  | deferred
  | finished
  | failed
deriving DecidableEq, Repr

/-- An RQ job record as observed by `export`: its status, its
`return_value` (the produced file path when finished) and its
`exc_info` (the stored error text when failed). -/
structure RqJob where
  status : JobStatus
  returnValue : String
  excInfo : String
deriving DecidableEq, Repr

/-- The caller-supplied query parameters of one HTTP request
(`request.query_params.get(...)` for each key). -/
structure ExportRequest where
  action : Option String
  filename : Option String
  org : Option String
  project : Option String
  task : Option String
  job : Option String
  user : Option String
  fromParam : Option String
  toParam : Option String
  queryIdParam : Option String
deriving DecidableEq, Repr

/-- Ambient state read by `export`: the RQ queue's job store keyed by
job id, the filesystem (`os.path.exists`), the fresh UUID that
`uuid.uuid4()` would return, the `datetime.now()` timestamp string,
`request.user`, and `settings.TMP_FILES_ROOT`. -/
structure World where
  jobs : String → Option RqJob
  fileExists : String → Bool
  freshUuid : String
  nowStamp : String
  requestUser : String
  tmpRoot : String

/-- Body of an HTTP response produced by `export`. -/
inductive RespBody
  | empty
  | queryIdBody (q : String)
  | text (t : String)
  | fileAttachment (path : String) (filename : String)
deriving DecidableEq, Repr

/-- An HTTP response: status code and body. -/
structure Resp where
  status : Nat
  body : RespBody
deriving DecidableEq, Repr

/-- The arguments captured by `queue.enqueue_call(func=_create_csv, ...)`:
the job id it is registered under, the (mutated) `query_params` dict and
the output filename. -/
structure EnqueueCall where
  jobId : String
  queryParams : List (String × QPVal)
  outputFilename : String
deriving DecidableEq, Repr

/-- Observable outcome of a successful (non-raising) `export` call: the
HTTP response, the production job enqueued by this call (if any), and
the job store after this call's deletions/enqueue. -/
structure ExportResult where
  resp : Resp
  enqueued : Option EnqueueCall
  jobsAfter : String → Option RqJob

/-- The exceptions `export` can raise: a `serializers.ValidationError`,
or an exception propagated from `parser.parse`. -/
inductive ExportError
  | parseError (msg : String)
  | validationError (msg : String)
deriving DecidableEq, Repr

/-- Python `dict.pop(key)` on an association list: returns the removed
value and the remaining dict, or a `KeyError` when the key is absent. -/
def dictPop (k : String) : List (String × QPVal) →
    Except String (QPVal × List (String × QPVal))
  | [] => Except.error ("KeyError: " ++ k)
  | (k', v) :: rest =>
    if k' = k then Except.ok (v, rest)
    else
      match dictPop k rest with
      | Except.error e => Except.error e
      | Except.ok (v', rest') => Except.ok (v', (k', v) :: rest')

/-- The scalar equality predicates built by the loop
`for param, value in query_params.items(): if value: ...` in
`_create_csv`: one `param = {param:UInt64}` condition per truthy
entry, in dict order. -/
def scalarConditions (qp : List (String × QPVal)) : List String :=
  qp.filterMap fun p =>
    if p.2.truthy then Option.some (p.1 ++ " = \x7b" ++ p.1 ++ ":UInt64\x7d")
    else Option.none

/-- The named parameters collected by the same loop: the truthy entries
of the dict, values untouched. -/
def scalarParameters (qp : List (String × QPVal)) : List (String × QPVal) :=
  qp.filter fun p => p.2.truthy

/-- Query construction of `_create_csv` (lines 34-51 of
`cvat/apps/events/export.py`): the scalar conditions, then the
`timestamp >= {from:DateTime64}` / `timestamp <= {to:DateTime64}`
conditions when the popped `from`/`to` values are truthy, joined with
`" AND "` after `"SELECT * FROM events"`; parameters collected
alongside. -/
def buildQuery (qp : List (String × QPVal)) (fromV toV : QPVal) :
    String × List (String × QPVal) :=
  let conditions :=
    scalarConditions qp
      ++ (if fromV.truthy then ["timestamp >= \x7bfrom:DateTime64\x7d"] else [])
      ++ (if toV.truthy then ["timestamp <= \x7bto:DateTime64\x7d"] else [])
  let parameters :=
    scalarParameters qp
      ++ (if fromV.truthy then [("from", fromV)] else [])
      ++ (if toV.truthy then [("to", toV)] else [])
  let query :=
    if conditions = [] then "SELECT * FROM events"
    else "SELECT * FROM events" ++ " WHERE " ++ String.intercalate " AND " conditions
  (query, parameters)

/-- The `_create_csv` worker function: pops `from` and `to` out of the
caller's `query_params` dict (a mutation that persists whatever happens
later), builds the query, then runs the effectful tail (ClickHouse
query, CSV write, cleanup scheduling), abstracted as `runEffects`.
Returns the dict as left after the call together with the outcome. -/
def createCsv (queryParams : List (String × QPVal))
    (runEffects : String → List (String × QPVal) → Except String String) :
    List (String × QPVal) × Except String String :=
  match dictPop "from" queryParams with
  | Except.error e => (queryParams, Except.error e)
  | Except.ok (fromV, qp1) =>
    match dictPop "to" qp1 with
    | Except.error e => (qp1, Except.error e)
    | Except.ok (toV, qp2) =>
      let built := buildQuery qp2 fromV toV
      (qp2, runEffects built.1 built.2)

/-- The parse step `if query_params['from']: query_params['from'] =
parser.parse(...).timestamp()`: a falsy value (`None` or `""`) is left
as is; a non-empty string is parsed, any parser exception propagating. -/
def parseTimeParam (parse : String → Except String Int) :
    Option String → Except ExportError QPVal
  | Option.none => Except.ok QPVal.none
  | Option.some s =>
    if s = "" then Except.ok (QPVal.str s)
    else
      match parse s with
      | Except.error e => Except.error (ExportError.parseError e)
      | Except.ok n => Except.ok (QPVal.num n)

/-- Python `any((org, project, task, job, user))` over the raw scalar
filter values. -/
def scopeAny (req : ExportRequest) : Bool :=
  (QPVal.ofOpt req.org).truthy || (QPVal.ofOpt req.project).truthy
    || (QPVal.ofOpt req.task).truthy || (QPVal.ofOpt req.job).truthy
    || (QPVal.ofOpt req.user).truthy

/-- The step `request.query_params.get('query-id', None) or uuid.uuid4()`:
the supplied id when truthy, else a fresh UUID. -/
def deriveQueryId : Option String → String → String
  | Option.some s, fresh => if s = "" then fresh else s
  | Option.none, fresh => fresh

/-- The deterministic job id `f"export:csv-logs-{query_id}-by-{request.user}"`. -/
def mkRqId (queryId user : String) : String :=
  "export:csv-logs-" ++ queryId ++ "-by-" ++ user

/-- The job id derived by `export` for a given request and world. -/
def reqRqId (req : ExportRequest) (w : World) : String :=
  mkRqId (deriveQueryId req.queryIdParam w.freshUuid) w.requestUser

/-- The attachment name `filename or f"logs_{timestamp}.csv"`. -/
def defaultFilename : Option String → String → String
  | Option.some s, stamp => if s = "" then "logs_" ++ stamp ++ ".csv" else s
  | Option.none, stamp => "logs_" ++ stamp ++ ".csv"

/-- The `query_params` dict as it stands when passed to
`queue.enqueue_call` (insertion order of the source). -/
def exportQueryParams (req : ExportRequest) (fromV toV : QPVal) :
    List (String × QPVal) :=
  [("organization", QPVal.ofOpt req.org), ("project", QPVal.ofOpt req.project),
    ("task", QPVal.ofOpt req.task), ("job", QPVal.ofOpt req.job),
    ("user", QPVal.ofOpt req.user), ("from", fromV), ("to", toV)]

/-- The submission tail of `export` (reached when no job record was
found, or through the finished-but-file-missing fall-through): enqueue
`_create_csv` under the derived job id and answer 202 with the
`query-id` body. -/
def enqueueResult (req : ExportRequest) (w : World) (fromV toV : QPVal) :
    ExportResult :=
  { resp := { status := 202,
              body := RespBody.queryIdBody (deriveQueryId req.queryIdParam w.freshUuid) },
    enqueued := Option.some
      { jobId := reqRqId req w,
        queryParams := exportQueryParams req fromV toV,
        outputFilename := w.tmpRoot ++ "/" ++ deriveQueryId req.queryIdParam w.freshUuid ++ ".csv" },
    jobsAfter := fun k =>
      if k = reqRqId req w then
        Option.some { status := JobStatus.queued, returnValue := "", excInfo := "" }
      else w.jobs k }

/-- The poll/submit/deliver dispatch of `export` (lines 121-155),
entered after validation has passed. -/
def exportCore (req : ExportRequest) (w : World) (fromV toV : QPVal) :
    ExportResult :=
  match w.jobs (reqRqId req w) with
  | Option.some rqJob =>
    if rqJob.status = JobStatus.finished then
      if req.action = Option.some "download" ∧ w.fileExists rqJob.returnValue = true then
        { resp := { status := 200,
                    body := RespBody.fileAttachment rqJob.returnValue
                      (defaultFilename req.filename w.nowStamp) },
          enqueued := Option.none,
          jobsAfter := fun k => if k = reqRqId req w then Option.none else w.jobs k }
      else if w.fileExists rqJob.returnValue = true then
        { resp := { status := 201, body := RespBody.empty },
          enqueued := Option.none,
          jobsAfter := w.jobs }
      else
        enqueueResult req w fromV toV
    else if rqJob.status = JobStatus.failed then
      { resp := { status := 500, body := RespBody.text rqJob.excInfo },
        enqueued := Option.none,
        jobsAfter := fun k => if k = reqRqId req w then Option.none else w.jobs k }
    else
      { resp := { status := 202,
                  body := RespBody.queryIdBody (deriveQueryId req.queryIdParam w.freshUuid) },
        enqueued := Option.none,
        jobsAfter := w.jobs }
  | Option.none => enqueueResult req w fromV toV

/-- The `export` view function: parse `from`/`to` (propagating parser
exceptions), run the three validation checks in source order, then
dispatch on the fetched job. -/
def exportEvents (parse : String → Except String Int)
    (req : ExportRequest) (w : World) : Except ExportError ExportResult :=
  match parseTimeParam parse req.fromParam with
  | Except.error e => Except.error e
  | Except.ok fromV =>
    match parseTimeParam parse req.toParam with
    | Except.error e => Except.error e
    | Except.ok toV =>
      if fromV.truthy && toV.truthy && decide (fromV.getNum > toV.getNum) then
        Except.error (ExportError.validationError "'from' must be before than 'to'")
      else if !scopeAny req then
        Except.error (ExportError.validationError
          "One of 'org', 'project', 'task', 'job', 'user' parameter must be specified")
      else if req.action ≠ Option.none ∧ req.action ≠ Option.some "download" then
        Except.error (ExportError.validationError "Unexpected action specified for the request")
      else
        Except.ok (exportCore req w fromV toV)

/-- Predicate: the call raised a `serializers.ValidationError` (as
opposed to succeeding or propagating a parser exception). -/
def isValidationError : Except ExportError ExportResult → Bool
  | Except.error (ExportError.validationError _) => true
  | _ => false

/-! Spec-side description of the builder output (for the refinement
claim about `_create_csv`'s query construction). -/

/-- Predicate list as the spec words it: one named-bound `UInt64`
equality predicate per non-empty scalar filter, plus a
`timestamp >= {from:DateTime64}` predicate when `from` is set and a
`timestamp <= {to:DateTime64}` predicate when `to` is set. -/
def specPredicates (qp : List (String × QPVal)) (fromV toV : QPVal) : List String :=
  ((qp.filter fun p => p.2.truthy).map fun p => p.1 ++ " = \x7b" ++ p.1 ++ ":UInt64\x7d")
    ++ (if fromV.truthy then ["timestamp >= \x7bfrom:DateTime64\x7d"] else [])
    ++ (if toV.truthy then ["timestamp <= \x7bto:DateTime64\x7d"] else [])

/-- Query string as the spec words it: `SELECT * FROM events` followed,
when at least one predicate exists, by `" WHERE "` and the predicates
joined with `" AND "`. -/
def specQueryString (qp : List (String × QPVal)) (fromV toV : QPVal) : String :=
  if specPredicates qp fromV toV = [] then "SELECT * FROM events"
  else "SELECT * FROM events" ++ " WHERE "
    ++ String.intercalate " AND " (specPredicates qp fromV toV)

/-- Parameter map as the spec words it: the literal value of each
non-empty scalar filter, and the `from`/`to` bounds when set. -/
def specParameters (qp : List (String × QPVal)) (fromV toV : QPVal) :
    List (String × QPVal) :=
  (qp.filter fun p => p.2.truthy)
    ++ (if fromV.truthy then [("from", fromV)] else [])
    ++ (if toV.truthy then [("to", toV)] else [])

/-! Concrete fixtures used by counterexamples and witnesses. -/

/-- A date parser stub that accepts everything with timestamp 1. -/
def parseStub : String → Except String Int := fun _ => Except.ok 1

/-- A date parser stub that rejects everything. -/
def parseFail : String → Except String Int := fun _ => Except.error "bad date"

/-- An effect stub for `createCsv` that succeeds. -/
def runStub : String → List (String × QPVal) → Except String String :=
  fun _ _ => Except.ok "/tmp/out.csv"

/-- A world with no jobs and no files. -/
def wEmpty : World :=
  { jobs := fun _ => Option.none, fileExists := fun _ => false,
    freshUuid := "fresh-uuid", nowStamp := "2023_05_01_12_00_00",
    requestUser := "alice", tmpRoot := "/tmp" }

/-- A request with only a `task` scope filter and an explicit query id. -/
def reqTaskOnly : ExportRequest :=
  { action := Option.none, filename := Option.none, org := Option.none,
    project := Option.none, task := Option.some "5", job := Option.none,
    user := Option.none, fromParam := Option.none, toParam := Option.none,
    queryIdParam := Option.some "qq" }

/-- A request whose `from` parameter is an unparseable string. -/
def reqBadFrom : ExportRequest :=
  { reqTaskOnly with fromParam := Option.some "not-a-date" }

/-- A request whose `to` parameter is an unparseable string. -/
def reqBadTo : ExportRequest :=
  { reqTaskOnly with toParam := Option.some "not-a-date" }

/-- A request whose only supplied scope filter is the empty string. -/
def reqEmptyOrg : ExportRequest :=
  { action := Option.none, filename := Option.none, org := Option.some "",
    project := Option.none, task := Option.none, job := Option.none,
    user := Option.none, fromParam := Option.none, toParam := Option.none,
    queryIdParam := Option.none }

/-- A finished job whose artifact is `/tmp/q1.csv`. -/
def jobFinQ1 : RqJob :=
  { status := JobStatus.finished, returnValue := "/tmp/q1.csv", excInfo := "" }

/-- A request polling query id `q1`. -/
def reqQ1 : ExportRequest := { reqTaskOnly with queryIdParam := Option.some "q1" }

/-- A world where `q1`'s job is finished but its file has been evicted. -/
def wFinMissingQ1 : World :=
  { wEmpty with jobs := fun k =>
      if k = mkRqId "q1" "alice" then Option.some jobFinQ1 else Option.none }

/-- A queued (non-terminal) job. -/
def jobQueuedQW : RqJob :=
  { status := JobStatus.queued, returnValue := "", excInfo := "" }

/-- A request polling query id `qw`. -/
def reqQW : ExportRequest := { reqTaskOnly with queryIdParam := Option.some "qw" }

/-- A world where `qw`'s job is still queued. -/
def wQueuedQW : World :=
  { wEmpty with jobs := fun k =>
      if k = mkRqId "qw" "alice" then Option.some jobQueuedQW else Option.none }

/-- A finished job whose artifact is `/tmp/q2.csv`. -/
def jobFinQ2 : RqJob :=
  { status := JobStatus.finished, returnValue := "/tmp/q2.csv", excInfo := "" }

/-- A request polling query id `q2`. -/
def reqQ2 : ExportRequest := { reqTaskOnly with queryIdParam := Option.some "q2" }

/-- A world where `q2`'s job is finished but its file has been evicted. -/
def wFinMissingQ2 : World :=
  { wEmpty with jobs := fun k =>
      if k = mkRqId "q2" "alice" then Option.some jobFinQ2 else Option.none }

/-- A finished job whose artifact is `/tmp/q4.csv`. -/
def jobFinQ4 : RqJob :=
  { status := JobStatus.finished, returnValue := "/tmp/q4.csv", excInfo := "" }

/-- A request polling query id `q4` without `action=download`. -/
def reqQ4 : ExportRequest := { reqTaskOnly with queryIdParam := Option.some "q4" }

/-- A world where `q4`'s job is finished and its file is present. -/
def wFinHaveQ4 : World :=
  { wEmpty with
    jobs := fun k => if k = mkRqId "q4" "alice" then Option.some jobFinQ4 else Option.none,
    fileExists := fun p => p == "/tmp/q4.csv" }

/-- A finished job whose artifact is `/tmp/q6.csv`. -/
def jobFinQ6 : RqJob :=
  { status := JobStatus.finished, returnValue := "/tmp/q6.csv", excInfo := "" }

/-- A download request polling query id `q6` with an explicit filename. -/
def reqQ6 : ExportRequest :=
  { reqTaskOnly with
    queryIdParam := Option.some "q6",
    action := Option.some "download", filename := Option.some "my.csv" }

/-- The same poll of `q6` without `action=download`. -/
def reqQ6b : ExportRequest := { reqTaskOnly with queryIdParam := Option.some "q6" }

/-- A world where `q6`'s job is finished and its file is present. -/
def wFinHaveQ6 : World :=
  { wEmpty with
    jobs := fun k => if k = mkRqId "q6" "alice" then Option.some jobFinQ6 else Option.none,
    fileExists := fun p => p == "/tmp/q6.csv" }

/-- A failed job with stored error text. -/
def jobFailQ7 : RqJob :=
  { status := JobStatus.failed, returnValue := "", excInfo := "connection refused" }

/-- A request polling query id `q7`. -/
def reqQ7 : ExportRequest := { reqTaskOnly with queryIdParam := Option.some "q7" }

/-- A world where `q7`'s job has failed. -/
def wFailedQ7 : World :=
  { wEmpty with jobs := fun k =>
      if k = mkRqId "q7" "alice" then Option.some jobFailQ7 else Option.none }

/-- A concrete `query_params` dict as handed to `_create_csv`. -/
def qpW9 : List (String × QPVal) :=
  [("organization", QPVal.none), ("project", QPVal.none), ("task", QPVal.str "5"),
    ("job", QPVal.none), ("user", QPVal.none), ("from", QPVal.num 100),
    ("to", QPVal.none)]

/-- `qpW9` after popping `from`. -/
def qpW9mid : List (String × QPVal) :=
  [("organization", QPVal.none), ("project", QPVal.none), ("task", QPVal.str "5"),
    ("job", QPVal.none), ("user", QPVal.none), ("to", QPVal.none)]

/-- `qpW9` after popping `from` and `to`. -/
def qpW9tail : List (String × QPVal) :=
  [("organization", QPVal.none), ("project", QPVal.none), ("task", QPVal.str "5"),
    ("job", QPVal.none), ("user", QPVal.none)]

/-! Helper lemmas shared by several claims. -/

/-- String append acts as list append on the underlying character data. -/
lemma string_data_append (s t : String) : (s ++ t).data = s.data ++ t.data := rfl

/-- Successful `exportEvents` calls factor through `exportCore` on the
parsed `from`/`to` values. -/
lemma exportEvents_ok_elim {parse : String → Except String Int}
    {req : ExportRequest} {w : World} {r : ExportResult}
    (h : exportEvents parse req w = Except.ok r) :
    ∃ fromV toV, parseTimeParam parse req.fromParam = Except.ok fromV ∧
      parseTimeParam parse req.toParam = Except.ok toV ∧
      r = exportCore req w fromV toV := by
  unfold exportEvents at h
  cases hf : parseTimeParam parse req.fromParam with
  | error e => rw [hf] at h; exact absurd h (by simp)
  | ok fromV =>
    rw [hf] at h
    cases ht : parseTimeParam parse req.toParam with
    | error e => rw [ht] at h; exact absurd h (by simp)
    | ok toV =>
      rw [ht] at h
      simp only at h
      split at h
      · exact absurd h (by simp)
      · split at h
        · exact absurd h (by simp)
        · split at h
          · exact absurd h (by simp)
          · exact ⟨fromV, toV, rfl, rfl, (Except.ok.inj h).symm⟩

/-- A successful `dict.pop` returns a sublist of the dict. -/
lemma dictPop_sublist : ∀ {k : String} {qp : List (String × QPVal)}
    {v : QPVal} {qp' : List (String × QPVal)},
    dictPop k qp = Except.ok (v, qp') → qp'.Sublist qp := by
  intro k qp
  induction qp with
  | nil => intro v qp' h; exact absurd h (by simp [dictPop])
  | cons hd tl ih =>
    intro v qp' h
    unfold dictPop at h
    by_cases hk : hd.1 = k
    · rw [if_pos hk] at h
      cases h
      exact List.sublist_cons_self hd tl
    · rw [if_neg hk] at h
      cases htl : dictPop k tl with
      | error e => rw [htl] at h; exact absurd h (by simp)
      | ok p =>
        rw [htl] at h
        cases p with
        | mk v' rest' =>
          simp only at h
          cases h
          exact List.Sublist.cons₂ hd (ih htl)

/-- A successful `dict.pop` shortens the dict by exactly one entry. -/
lemma dictPop_length : ∀ {k : String} {qp : List (String × QPVal)}
    {v : QPVal} {qp' : List (String × QPVal)},
    dictPop k qp = Except.ok (v, qp') → qp'.length + 1 = qp.length := by
  intro k qp
  induction qp with
  | nil => intro v qp' h; exact absurd h (by simp [dictPop])
  | cons hd tl ih =>
    intro v qp' h
    unfold dictPop at h
    by_cases hk : hd.1 = k
    · rw [if_pos hk] at h
      cases h
      rfl
    · rw [if_neg hk] at h
      cases htl : dictPop k tl with
      | error e => rw [htl] at h; exact absurd h (by simp)
      | ok p =>
        rw [htl] at h
        cases p with
        | mk v' rest' =>
          simp only at h
          cases h
          simp [ih htl]

/-- When the dict keys are distinct, a successful `dict.pop` removes the
key entirely. -/
lemma dictPop_key_not_mem : ∀ {k : String} {qp : List (String × QPVal)}
    {v : QPVal} {qp' : List (String × QPVal)},
    (qp.map Prod.fst).Nodup → dictPop k qp = Except.ok (v, qp') →
    k ∉ qp'.map Prod.fst := by
  intro k qp
  induction qp with
  | nil => intro v qp' _ h; exact absurd h (by simp [dictPop])
  | cons hd tl ih =>
    intro v qp' hnd h
    unfold dictPop at h
    rw [List.map_cons, List.nodup_cons] at hnd
    by_cases hk : hd.1 = k
    · rw [if_pos hk] at h
      cases h
      rw [← hk]
      exact hnd.1
    · rw [if_neg hk] at h
      cases htl : dictPop k tl with
      | error e => rw [htl] at h; exact absurd h (by simp)
      | ok p =>
        rw [htl] at h
        cases p with
        | mk v' rest' =>
          simp only at h
          cases h
          intro hmem
          rw [List.map_cons, List.mem_cons] at hmem
          rcases hmem with hmem | hmem
          · exact hk hmem.symm
          · exact ih hnd.2 htl hmem

/-- `scalarConditions` is the map of the condition template over the
truthy entries. -/
lemma scalarConditions_eq (qp : List (String × QPVal)) :
    scalarConditions qp = (qp.filter fun p => p.2.truthy).map
      (fun p => p.1 ++ " = \x7b" ++ p.1 ++ ":UInt64\x7d") := by
  induction qp with
  | nil => rfl
  | cons hd tl ih =>
    by_cases h : hd.2.truthy
    · simp [scalarConditions, List.filterMap_cons, List.filter_cons, h] at ih ⊢
      exact ih
    · simp [scalarConditions, List.filterMap_cons, List.filter_cons, h] at ih ⊢
      exact ih

/-- The scalar condition strings depend only on the keys and the
truthiness mask of the dict, never on the literal values. -/
lemma scalarConditions_congr : ∀ (qp qp' : List (String × QPVal)),
    qp.map Prod.fst = qp'.map Prod.fst →
    (qp.map fun p => p.2.truthy) = (qp'.map fun p => p.2.truthy) →
    scalarConditions qp = scalarConditions qp' := by
  intro qp
  induction qp with
  | nil =>
    intro qp' h _
    cases qp' with
    | nil => rfl
    | cons y ys => exact absurd h (by simp)
  | cons x xs ih =>
    intro qp' h h2
    cases qp' with
    | nil => exact absurd h (by simp)
    | cons y ys =>
      simp only [List.map_cons, List.cons.injEq] at h h2
      unfold scalarConditions
      simp only [List.filterMap_cons]
      rw [show (if x.2.truthy then Option.some (x.1 ++ " = \x7b" ++ x.1 ++ ":UInt64\x7d")
            else Option.none)
          = (if y.2.truthy then Option.some (y.1 ++ " = \x7b" ++ y.1 ++ ":UInt64\x7d")
            else Option.none) from by rw [h.1, h2.1]]
      have htl := ih ys h.2 h2.2
      unfold scalarConditions at htl
      rw [htl]

/-- C8: the JobId is exactly the string
`export:csv-logs-{query_id}-by-{user}`; for a fixed user, identical
query ids derive the same JobId and distinct query ids derive distinct
JobIds. -/
theorem c8_job_id_deterministic_and_injective :
    (∀ q u, mkRqId q u = "export:csv-logs-" ++ q ++ "-by-" ++ u) ∧
    (∀ u q1 q2, mkRqId q1 u = mkRqId q2 u → q1 = q2) := by
  refine ⟨fun q u => rfl, fun u q1 q2 h => ?_⟩
  unfold mkRqId at h
  have hd := congrArg String.data h
  simp only [string_data_append, List.append_assoc] at hd
  have h2 := List.append_cancel_left hd
  have h3 := List.append_cancel_right h2
  exact congrArg String.mk h3

/-- C8 witness: the JobId formula and injectivity at concrete inputs. -/
theorem c8_job_id_witness :
    mkRqId "q1" "alice" = "export:csv-logs-q1-by-alice" ∧ ("q1" : String) = "q1" :=
  ⟨(c8_job_id_deterministic_and_injective.1 "q1" "alice").trans (by decide),
    c8_job_id_deterministic_and_injective.2 "alice" "q1" "q1" rfl⟩

/-- C10: an unparseable non-empty `from` or `to` string makes `export`
propagate the date parser's exception (not a `ValidationError`), before
the scope-filter and action checks and before any job lookup or
enqueue. -/
theorem c10_parse_error_propagates :
    ∀ (parse : String → Except String Int) (req : ExportRequest) (w : World)
      (s e : String),
    (req.fromParam = Option.some s → s ≠ "" → parse s = Except.error e →
      exportEvents parse req w = Except.error (ExportError.parseError e)) ∧
    (req.toParam = Option.some s → s ≠ "" → parse s = Except.error e →
      (∃ fromV, parseTimeParam parse req.fromParam = Except.ok fromV) →
      exportEvents parse req w = Except.error (ExportError.parseError e)) := by
  intro parse req w s e
  constructor
  · intro hf hs hp
    have hstep : parseTimeParam parse req.fromParam
        = Except.error (ExportError.parseError e) := by
      rw [hf]
      simp only [parseTimeParam, if_neg hs, hp]
    unfold exportEvents
    rw [hstep]
  · intro ht hs hp hok
    obtain ⟨fromV, hfv⟩ := hok
    have hstep : parseTimeParam parse req.toParam
        = Except.error (ExportError.parseError e) := by
      rw [ht]
      simp only [parseTimeParam, if_neg hs, hp]
    unfold exportEvents
    rw [hfv, hstep]

/-- C10 witness: the parser exception at concrete bad `from` and `to`
inputs, with every other request field arbitrary but fixed. -/
theorem c10_parse_error_witness :
    exportEvents parseFail reqBadFrom wEmpty
        = Except.error (ExportError.parseError "bad date") ∧
    exportEvents parseFail reqBadTo wEmpty
        = Except.error (ExportError.parseError "bad date") :=
  ⟨(c10_parse_error_propagates parseFail reqBadFrom wEmpty "not-a-date" "bad date").1
      rfl (by decide) rfl,
    (c10_parse_error_propagates parseFail reqBadTo wEmpty "not-a-date" "bad date").2
      rfl (by decide) rfl ⟨QPVal.none, rfl⟩⟩

/-- C5: the built query string is `SELECT * FROM events`, followed —
when at least one predicate exists — by `" WHERE "` and the predicates
joined with `" AND "`: one named-bound `UInt64` equality predicate per
truthy scalar filter plus the `from`/`to` timestamp predicates; literal
values land only in the parameters map and never in the query string,
and the empty-filter case yields the bare whole-table select without
failing. -/
theorem c5_query_construction :
    (∀ qp fromV toV, buildQuery qp fromV toV
        = (specQueryString qp fromV toV, specParameters qp fromV toV)) ∧
    buildQuery [] QPVal.none QPVal.none = ("SELECT * FROM events", []) ∧
    (∀ (qp qp' : List (String × QPVal)) fromV fromV' toV toV',
      qp.map Prod.fst = qp'.map Prod.fst →
      (qp.map fun p => p.2.truthy) = (qp'.map fun p => p.2.truthy) →
      fromV.truthy = fromV'.truthy → toV.truthy = toV'.truthy →
      (buildQuery qp fromV toV).1 = (buildQuery qp' fromV' toV').1) := by
  refine ⟨fun qp fromV toV => ?_, rfl, fun qp qp' fromV fromV' toV toV' h1 h2 h3 h4 => ?_⟩
  · unfold buildQuery specQueryString specPredicates specParameters scalarParameters
    rw [scalarConditions_eq]
  · unfold buildQuery
    rw [scalarConditions_congr qp qp' h1 h2, h3, h4]

/-- C5 witness: the builder refinement and the value-independence of
the query string at concrete filter dictionaries. -/
theorem c5_query_construction_witness :
    buildQuery [("task", QPVal.str "5")] (QPVal.num 100) QPVal.none
      = (specQueryString [("task", QPVal.str "5")] (QPVal.num 100) QPVal.none,
          specParameters [("task", QPVal.str "5")] (QPVal.num 100) QPVal.none) ∧
    (buildQuery [("task", QPVal.str "5")] (QPVal.num 100) QPVal.none).1
      = (buildQuery [("task", QPVal.str "777")] (QPVal.num 9) QPVal.none).1 :=
  ⟨c5_query_construction.1 [("task", QPVal.str "5")] (QPVal.num 100) QPVal.none,
    c5_query_construction.2.2 [("task", QPVal.str "5")] [("task", QPVal.str "777")]
      (QPVal.num 100) (QPVal.num 9) QPVal.none QPVal.none
      (by decide) (by decide) (by decide) (by decide)⟩

/-- C9: `_create_csv` mutates its `query_params` argument — whatever the
later effects do, the caller's dict ends up without its `from` and `to`
keys, so the input mapping is not left unchanged. -/
theorem c9_create_csv_mutates_dict :
    ∀ (qp : List (String × QPVal)) fromV qp1 toV qp2,
    (qp.map Prod.fst).Nodup →
    dictPop "from" qp = Except.ok (fromV, qp1) →
    dictPop "to" qp1 = Except.ok (toV, qp2) →
    ∀ runEffects, (createCsv qp runEffects).1 = qp2 ∧
      "from" ∉ qp2.map Prod.fst ∧ "to" ∉ qp2.map Prod.fst ∧
      (createCsv qp runEffects).1 ≠ qp := by
  intro qp fromV qp1 toV qp2 hnd hf ht runEffects
  have h1 : (createCsv qp runEffects).1 = qp2 := by
    simp only [createCsv, hf, ht]
  have hnd1 : (qp1.map Prod.fst).Nodup :=
    hnd.sublist ((dictPop_sublist hf).map Prod.fst)
  have hfrom2 : "from" ∉ qp2.map Prod.fst := by
    intro hmem
    exact dictPop_key_not_mem hnd hf
      (((dictPop_sublist ht).map Prod.fst).subset hmem)
  have hto2 : "to" ∉ qp2.map Prod.fst := dictPop_key_not_mem hnd1 ht
  have hlen : qp2.length < qp.length := by
    have l1 := dictPop_length hf
    have l2 := dictPop_length ht
    omega
  refine ⟨h1, hfrom2, hto2, ?_⟩
  rw [h1]
  intro hcontra
  rw [hcontra] at hlen
  exact lt_irrefl _ hlen

/-- C9 witness: the dict mutation on a concrete `query_params` dict,
under a succeeding effect stub. -/
theorem c9_create_csv_mutates_dict_witness :
    (createCsv qpW9 runStub).1 = qpW9tail ∧
    "from" ∉ qpW9tail.map Prod.fst ∧ "to" ∉ qpW9tail.map Prod.fst ∧
    (createCsv qpW9 runStub).1 ≠ qpW9 :=
  c9_create_csv_mutates_dict qpW9 (QPVal.num 100) qpW9mid QPVal.none qpW9tail
    (by decide) rfl rfl runStub

/-- C1 counterexample: with a FINISHED job record still in the queue but
its artifact file missing, `export` does enqueue a new production job —
refuting the claim that no enqueue ever happens while a record exists. -/
theorem c1_counterexample :
    (wFinMissingQ1.jobs (reqRqId reqQ1 wFinMissingQ1)).isSome = true ∧
    (exportEvents parseStub reqQ1 wFinMissingQ1).map (fun r => r.enqueued.isSome)
      = Except.ok true :=
  ⟨rfl, rfl⟩

/-- C1 (amended): while a Job record exists for the derived JobId,
`export` never enqueues a new production job — except through the
finished-but-artifact-missing fall-through; in particular any existing
non-finished record, and any finished record whose file is still
present, blocks resubmission. -/
theorem c1_no_resubmission_amended :
    ∀ (parse : String → Except String Int) (req : ExportRequest) (w : World)
      (job : RqJob) (r : ExportResult),
    w.jobs (reqRqId req w) = Option.some job →
    (job.status ≠ JobStatus.finished ∨ w.fileExists job.returnValue = true) →
    exportEvents parse req w = Except.ok r →
    r.enqueued = Option.none := by
  intro parse req w job r hjob hcond hok
  obtain ⟨fromV, toV, _, _, hr⟩ := exportEvents_ok_elim hok
  subst hr
  simp only [exportCore, hjob]
  by_cases hfin : job.status = JobStatus.finished
  · rcases hcond with h | hfile
    · exact absurd hfin h
    · rw [if_pos hfin]
      by_cases hdl : req.action = Option.some "download" ∧ w.fileExists job.returnValue = true
      · rw [if_pos hdl]
      · rw [if_neg hdl, if_pos hfile]
  · rw [if_neg hfin]
    by_cases hfl : job.status = JobStatus.failed
    · rw [if_pos hfl]
    · rw [if_neg hfl]

/-- C1 witness: a still-queued job record blocks resubmission at a
concrete input. -/
theorem c1_no_resubmission_witness :
    (exportCore reqQW wQueuedQW QPVal.none QPVal.none).enqueued = Option.none :=
  c1_no_resubmission_amended parseStub reqQW wQueuedQW jobQueuedQW
    (exportCore reqQW wQueuedQW QPVal.none QPVal.none)
    rfl (Or.inl (by decide)) rfl

/-- C2 counterexample: with a FINISHED job whose artifact is missing,
`export` resubmits — a new production job is enqueued — refuting the
claim that this case leaves the stale record and triggers no
resubmission. -/
theorem c2_counterexample :
    wFinMissingQ2.jobs (reqRqId reqQ2 wFinMissingQ2) = Option.some jobFinQ2 ∧
    jobFinQ2.status = JobStatus.finished ∧
    wFinMissingQ2.fileExists jobFinQ2.returnValue = false ∧
    (exportEvents parseStub reqQ2 wFinMissingQ2).map (fun r => r.enqueued.isSome)
      = Except.ok true :=
  ⟨rfl, rfl, rfl, rfl⟩

/-- C2 (amended): when a poll finds the Job FINISHED but the artifact
file missing, `export` falls through exactly as if the job were absent:
it enqueues a new production job under the same JobId, replacing the
stale record with a fresh queued one, and degrades to the 202 "not
ready" response rather than raising. -/
theorem c2_missing_artifact_amended :
    ∀ (parse : String → Except String Int) (req : ExportRequest) (w : World)
      (job : RqJob) (r : ExportResult),
    w.jobs (reqRqId req w) = Option.some job →
    job.status = JobStatus.finished →
    w.fileExists job.returnValue = false →
    exportEvents parse req w = Except.ok r →
    (∃ c, r.enqueued = Option.some c ∧ c.jobId = reqRqId req w) ∧
    r.resp.status = 202 ∧
    r.jobsAfter (reqRqId req w)
      = Option.some { status := JobStatus.queued, returnValue := "", excInfo := "" } := by
  intro parse req w job r hjob hfin hmiss hok
  obtain ⟨fromV, toV, _, _, hr⟩ := exportEvents_ok_elim hok
  subst hr
  have hne : ¬(req.action = Option.some "download" ∧ w.fileExists job.returnValue = true) := by
    intro h
    rw [hmiss] at h
    exact Bool.false_ne_true h.2
  have hne2 : ¬(w.fileExists job.returnValue = true) := by
    rw [hmiss]
    exact Bool.false_ne_true
  simp only [exportCore, hjob]
  rw [if_pos hfin, if_neg hne, if_neg hne2]
  refine ⟨⟨_, rfl, rfl⟩, rfl, ?_⟩
  simp [enqueueResult]

/-- C2 witness: the fall-through resubmission at a concrete
finished-but-missing instance. -/
theorem c2_missing_artifact_witness :
    (∃ c, (exportCore reqQ2 wFinMissingQ2 QPVal.none QPVal.none).enqueued
        = Option.some c ∧ c.jobId = reqRqId reqQ2 wFinMissingQ2) ∧
    (exportCore reqQ2 wFinMissingQ2 QPVal.none QPVal.none).resp.status = 202 ∧
    (exportCore reqQ2 wFinMissingQ2 QPVal.none QPVal.none).jobsAfter
        (reqRqId reqQ2 wFinMissingQ2)
      = Option.some { status := JobStatus.queued, returnValue := "", excInfo := "" } :=
  c2_missing_artifact_amended parseStub reqQ2 wFinMissingQ2 jobFinQ2
    (exportCore reqQ2 wFinMissingQ2 QPVal.none QPVal.none) rfl rfl rfl rfl

/-- C3 counterexample: a request whose only scope filter is present but
empty (`org=""`) is rejected with a ValidationError even though a scope
filter is present — refuting the "exactly when none ... present"
characterisation. -/
theorem c3_counterexample :
    reqEmptyOrg.org = Option.some "" ∧
    isValidationError (exportEvents parseStub reqEmptyOrg wEmpty) = true :=
  ⟨rfl, rfl⟩

/-- C3 (amended): once `from`/`to` parsing has succeeded, `export`
raises a ValidationError exactly when every scalar scope filter is
absent or empty, or `from` and `to` are both truthy (non-empty, nonzero
timestamp) with `from > to`, or `action` is present and different from
"download"; a rejected request produces no job. -/
theorem c3_validation_amended :
    ∀ (parse : String → Except String Int) (req : ExportRequest) (w : World)
      (fromV toV : QPVal),
    parseTimeParam parse req.fromParam = Except.ok fromV →
    parseTimeParam parse req.toParam = Except.ok toV →
    (isValidationError (exportEvents parse req w) = true ↔
      ((fromV.truthy = true ∧ toV.truthy = true ∧ toV.getNum < fromV.getNum) ∨
        scopeAny req = false ∨
        (req.action ≠ Option.none ∧ req.action ≠ Option.some "download"))) := by
  intro parse req w fromV toV hf ht
  simp only [exportEvents, hf, ht]
  by_cases h1 : (fromV.truthy && toV.truthy && decide (fromV.getNum > toV.getNum)) = true
  · rw [if_pos h1]
    simp only [Bool.and_eq_true, decide_eq_true_eq] at h1
    simp [isValidationError, h1.1.1, h1.1.2, h1.2]
  · rw [if_neg h1]
    by_cases h2 : scopeAny req = false
    · rw [if_pos (by simp [h2])]
      simp [isValidationError, h2]
    · rw [if_neg (by simp [Bool.not_eq_true'] at h2 ⊢; exact h2)]
      by_cases h3 : req.action ≠ Option.none ∧ req.action ≠ Option.some "download"
      · rw [if_pos h3]
        simp [isValidationError, h3]
      · rw [if_neg h3]
        constructor
        · intro hcontra
          exact absurd hcontra (by simp [isValidationError])
        · intro hcases
          rcases hcases with ⟨ha, hb, hc⟩ | hscope | hact
          · refine absurd (show (fromV.truthy && toV.truthy
              && decide (fromV.getNum > toV.getNum)) = true from ?_) h1
            rw [ha, hb]
            simpa using hc
          · exact absurd hscope h2
          · exact absurd hact h3

/-- C3 witness: the amended characterisation at the concrete
empty-`org` request (rejected because every scope filter is falsy). -/
theorem c3_validation_witness :
    isValidationError (exportEvents parseStub reqEmptyOrg wEmpty) = true ↔
      ((QPVal.none.truthy = true ∧ QPVal.none.truthy = true ∧
          QPVal.none.getNum < QPVal.none.getNum) ∨
        scopeAny reqEmptyOrg = false ∨
        (reqEmptyOrg.action ≠ Option.none ∧
          reqEmptyOrg.action ≠ Option.some "download")) :=
  c3_validation_amended parseStub reqEmptyOrg wEmpty QPVal.none QPVal.none rfl rfl

/-- C4 counterexample: the 201 "ready" response carries an empty body,
not the query id — refuting the claim that every response carries the
query id. -/
theorem c4_counterexample :
    (exportEvents parseStub reqQ4 wFinHaveQ4).map (fun r => (r.resp.status, r.resp.body))
      = Except.ok (201, RespBody.empty) :=
  rfl

/-- C4 (amended): every 202 Accepted response — fresh submission or
pending poll — carries the derived query id in its body, so repeated
polls by the same caller converge on the same JobId; terminal responses
(201, 500, file stream) carry no query id. -/
theorem c4_query_id_amended :
    ∀ (parse : String → Except String Int) (req : ExportRequest) (w : World)
      (r : ExportResult),
    exportEvents parse req w = Except.ok r →
    r.resp.status = 202 →
    r.resp.body = RespBody.queryIdBody (deriveQueryId req.queryIdParam w.freshUuid) := by
  intro parse req w r hok h202
  obtain ⟨fromV, toV, _, _, hr⟩ := exportEvents_ok_elim hok
  subst hr
  revert h202
  cases hjobs : w.jobs (reqRqId req w) with
  | none =>
    simp only [exportCore, hjobs]
    intro _
    rfl
  | some job =>
    simp only [exportCore, hjobs]
    by_cases hfin : job.status = JobStatus.finished
    · rw [if_pos hfin]
      by_cases hdl : req.action = Option.some "download" ∧ w.fileExists job.returnValue = true
      · rw [if_pos hdl]
        intro h202
        exact absurd h202 (by simp)
      · rw [if_neg hdl]
        by_cases hfile : w.fileExists job.returnValue = true
        · rw [if_pos hfile]
          intro h202
          exact absurd h202 (by simp)
        · rw [if_neg hfile]
          intro _
          rfl
    · rw [if_neg hfin]
      by_cases hfl : job.status = JobStatus.failed
      · rw [if_pos hfl]
        intro h202
        exact absurd h202 (by simp)
      · rw [if_neg hfl]
        intro _
        rfl

/-- C4 witness: a fresh submission's 202 response carries the derived
query id at a concrete input. -/
theorem c4_query_id_witness :
    (exportCore reqTaskOnly wEmpty QPVal.none QPVal.none).resp.body
      = RespBody.queryIdBody (deriveQueryId reqTaskOnly.queryIdParam wEmpty.freshUuid) :=
  c4_query_id_amended parseStub reqTaskOnly wEmpty
    (exportCore reqTaskOnly wEmpty QPVal.none QPVal.none) rfl rfl

/-- C6: when a poll finds the Job FINISHED and the artifact present:
with `action=download` the record is deleted and the file streamed back
under the caller-supplied or timestamp-derived name; without it the
response is 201 Created and the record survives for a later download. -/
theorem c6_finished_delivery :
    ∀ (parse : String → Except String Int) (req : ExportRequest) (w : World)
      (job : RqJob) (r : ExportResult),
    w.jobs (reqRqId req w) = Option.some job →
    job.status = JobStatus.finished →
    w.fileExists job.returnValue = true →
    exportEvents parse req w = Except.ok r →
    (req.action = Option.some "download" →
      r.resp.status = 200 ∧
      r.resp.body = RespBody.fileAttachment job.returnValue
        (defaultFilename req.filename w.nowStamp) ∧
      r.jobsAfter (reqRqId req w) = Option.none ∧
      r.enqueued = Option.none) ∧
    (req.action ≠ Option.some "download" →
      r.resp.status = 201 ∧ r.resp.body = RespBody.empty ∧
      r.jobsAfter (reqRqId req w) = Option.some job ∧
      r.enqueued = Option.none) := by
  intro parse req w job r hjob hfin hfile hok
  obtain ⟨fromV, toV, _, _, hr⟩ := exportEvents_ok_elim hok
  subst hr
  constructor
  · intro hdl
    simp only [exportCore, hjob]
    rw [if_pos hfin, if_pos ⟨hdl, hfile⟩]
    exact ⟨rfl, rfl, by simp, rfl⟩
  · intro hne
    have hnand : ¬(req.action = Option.some "download" ∧ w.fileExists job.returnValue = true) :=
      fun h => hne h.1
    simp only [exportCore, hjob]
    rw [if_pos hfin, if_neg hnand, if_pos hfile]
    exact ⟨rfl, rfl, hjob, rfl⟩

/-- C6 witness: delivery with `action=download` and readiness without
it, at one concrete finished job with its file present. -/
theorem c6_finished_delivery_witness :
    ((exportCore reqQ6 wFinHaveQ6 QPVal.none QPVal.none).resp.status = 200 ∧
      (exportCore reqQ6 wFinHaveQ6 QPVal.none QPVal.none).resp.body
        = RespBody.fileAttachment jobFinQ6.returnValue
            (defaultFilename reqQ6.filename wFinHaveQ6.nowStamp) ∧
      (exportCore reqQ6 wFinHaveQ6 QPVal.none QPVal.none).jobsAfter
          (reqRqId reqQ6 wFinHaveQ6) = Option.none ∧
      (exportCore reqQ6 wFinHaveQ6 QPVal.none QPVal.none).enqueued = Option.none) ∧
    ((exportCore reqQ6b wFinHaveQ6 QPVal.none QPVal.none).resp.status = 201 ∧
      (exportCore reqQ6b wFinHaveQ6 QPVal.none QPVal.none).resp.body = RespBody.empty ∧
      (exportCore reqQ6b wFinHaveQ6 QPVal.none QPVal.none).jobsAfter
          (reqRqId reqQ6b wFinHaveQ6) = Option.some jobFinQ6 ∧
      (exportCore reqQ6b wFinHaveQ6 QPVal.none QPVal.none).enqueued = Option.none) :=
  ⟨(c6_finished_delivery parseStub reqQ6 wFinHaveQ6 jobFinQ6
      (exportCore reqQ6 wFinHaveQ6 QPVal.none QPVal.none) rfl rfl rfl rfl).1 rfl,
    (c6_finished_delivery parseStub reqQ6b wFinHaveQ6 jobFinQ6
      (exportCore reqQ6b wFinHaveQ6 QPVal.none QPVal.none) rfl rfl rfl rfl).2
      (by decide)⟩

/-- C7: when a poll finds the Job FAILED, `export` deletes the record
and answers 500 with the stored error text, so the failure is delivered
at most once and a later poll cannot observe the same failed record. -/
theorem c7_failed_delivery :
    ∀ (parse : String → Except String Int) (req : ExportRequest) (w : World)
      (job : RqJob) (r : ExportResult),
    w.jobs (reqRqId req w) = Option.some job →
    job.status = JobStatus.failed →
    exportEvents parse req w = Except.ok r →
    r.resp.status = 500 ∧ r.resp.body = RespBody.text job.excInfo ∧
    r.jobsAfter (reqRqId req w) = Option.none ∧
    r.enqueued = Option.none := by
  intro parse req w job r hjob hfl hok
  obtain ⟨fromV, toV, _, _, hr⟩ := exportEvents_ok_elim hok
  subst hr
  have hnfin : ¬(job.status = JobStatus.finished) := by
    rw [hfl]
    exact fun h => JobStatus.noConfusion h
  simp only [exportCore, hjob]
  rw [if_neg hnfin, if_pos hfl]
  exact ⟨rfl, rfl, by simp, rfl⟩

/-- C7 witness: the once-only failure delivery at a concrete failed
job. -/
theorem c7_failed_delivery_witness :
    (exportCore reqQ7 wFailedQ7 QPVal.none QPVal.none).resp.status = 500 ∧
    (exportCore reqQ7 wFailedQ7 QPVal.none QPVal.none).resp.body
      = RespBody.text jobFailQ7.excInfo ∧
    (exportCore reqQ7 wFailedQ7 QPVal.none QPVal.none).jobsAfter
        (reqRqId reqQ7 wFailedQ7) = Option.none ∧
    (exportCore reqQ7 wFailedQ7 QPVal.none QPVal.none).enqueued = Option.none :=
  c7_failed_delivery parseStub reqQ7 wFailedQ7 jobFailQ7
    (exportCore reqQ7 wFailedQ7 QPVal.none QPVal.none) rfl rfl rfl

end CvatEventsExport
